import Mathlib

/-!
Shallow embedding of the CollectWise chatbot negotiation decision engine
(the `assistantLogic` module of the repository).  JavaScript numbers are
modelled as exact rationals; `Math.ceil` and `Math.floor` become the integer
ceiling and floor coerced back to the rationals, and rational division by
zero follows the Lean convention (the JS float special values are outside
this model, as is float rounding error).  The nondeterministic `id` (uuid)
field of chat messages is omitted, and the module-level mutable
`negotiationStage` is threaded explicitly: every engine function takes the
current stage and returns the updated stage alongside the chat message.
-/

namespace CollectWise

/-- JS `Math.ceil` on the rational model of JS numbers. -/
def jsCeil (q : ℚ) : ℚ := (⌈q⌉ : ℚ)

/-- JS `Math.floor` on the rational model of JS numbers. -/
def jsFloor (q : ℚ) : ℚ := (⌊q⌋ : ℚ)

/-- The `PaymentPlan` record type.  The frequency is kept as a plain string
because the source only casts (`as PaymentPlan['frequency']`) without any
runtime check. -/
structure PaymentPlan where
  frequency : String
  amount : ℚ
  termLength : ℚ
  totalAmount : ℚ
deriving DecidableEq

/-- The `FinalPaymentPlan` record type: a plan plus an optional payment
link. -/
structure FinalPaymentPlan where
  frequency : String
  amount : ℚ
  termLength : ℚ
  totalAmount : ℚ
  paymentLink : Option String
deriving DecidableEq

/-- The `displayType` discriminator of a chat message. -/
inductive DisplayType where
  | text
  | paymentPlans
  | finalPlan
deriving DecidableEq

/-- The `displayData` payload of a chat message: either a list of working
plans or a terminal agreement. -/
inductive DisplayData where
  | plans (ps : List PaymentPlan)
  | final (fp : FinalPaymentPlan)
deriving DecidableEq

/-- The `ChatMessage` record, without the uuid `id` field. -/
structure ChatMessage where
  message : String
  isBot : Bool
  displayType : Option DisplayType
  displayData : Option DisplayData
deriving DecidableEq

/-- JS number-to-string coercion used in template literals, modelled exactly
for integral values (the only values relevant to the claims); non-integral
rationals are rendered as a fraction, which is irrelevant to every theorem
below because both sides of each equation use this same function. -/
def jsNumToString (q : ℚ) : String :=
  if q.den = 1 then toString q.num else toString q.num ++ "/" ++ toString q.den

/-- JS `Number.prototype.toFixed(2)`, modelled as decimal rounding to two
places.  It is only used inside one explanatory message string, which no
claim inspects. -/
def toFixed2 (q : ℚ) : String :=
  let n : ℤ := ⌊q * 100 + 1 / 2⌋
  toString (n / 100) ++ "." ++ (if (n % 100).natAbs < 10 then "0" else "")
    ++ toString (n % 100).natAbs

/-- Match `pat` against the head of `cs`; on success return the remaining
input. -/
def matchChars : List Char → List Char → Option (List Char)
  | [], rest => some rest
  | _ :: _, [] => none
  | p :: ps, c :: rest => if c = p then matchChars ps rest else none

/-- JS `String.prototype.includes` on character lists. -/
def listIncludes : List Char → List Char → Bool
  | [], sub => sub.isEmpty
  | c :: rest, sub => (matchChars sub (c :: rest)).isSome || listIncludes rest sub

/-- JS `s.toLowerCase().includes(keyword)` for an ASCII keyword. -/
def lowerIncludes (s : String) (keyword : String) : Bool :=
  listIncludes (s.toList.map Char.toLower) keyword.toList

/-- The `allowedFrequencies` list used by the hard frequency validation. -/
def allowedFrequencies : List String := ["weekly", "biweekly", "monthly"]

/-- `getMinimumPayment`: the rate table `{monthly: 0.08, biweekly: 0.04,
weekly: 0.02}` with the `|| 0.08` fallback for unknown keys (all table
values are nonzero, so the JS falsy fallback coincides with key absence),
the product rounded up with `Math.ceil`. -/
def getMinimumPayment (frequency : String) (debtAmount : ℚ) : ℚ :=
  let rate : ℚ :=
    if frequency = "monthly" then 0.08
    else if frequency = "biweekly" then 0.04
    else if frequency = "weekly" then 0.02
    else 0.08
  jsCeil (debtAmount * rate)

/-- `createCounterProposal`, the shared counter-offer builder.  Note that the
displayed amount is recomputed as `Math.floor(totalAmount / termLength)`
regardless of what amount the caller had in mind; the uneven remainder is
described in the message as a larger final payment. -/
def createCounterProposal (systemMessage : String) (frequency : String)
    (termLength : ℚ) (totalAmount : ℚ) (userMessage : String) (stage : ℕ) :
    ChatMessage × ℕ :=
  let regularAmount := jsFloor (totalAmount / termLength)
  let finalPayment := totalAmount - regularAmount * (termLength - 1)
  let isEqualPayments : Bool := decide (regularAmount = finalPayment)
  let displayAmount := regularAmount
  let counter : PaymentPlan :=
    { frequency := frequency, amount := displayAmount,
      termLength := termLength, totalAmount := totalAmount }
  let firstMessage := if userMessage = "" then systemMessage else userMessage
  let finalMessage :=
    if isEqualPayments = false ∧ userMessage = "" then
      firstMessage ++ " Note: The final payment will be $" ++ toFixed2 finalPayment
        ++ " to ensure the total exactly matches your debt amount."
    else firstMessage
  ({ message := finalMessage, isBot := true,
     displayType := some DisplayType.paymentPlans,
     displayData := some (DisplayData.plans [counter]) }, stage + 1)

/-- The `userProposal` argument shape of `evaluateAndNegotiate`. -/
structure UserProposal where
  amount : ℚ
  frequency : String
  termLength : ℚ
deriving DecidableEq

/-- The `response` argument shape of `evaluateAndNegotiate`. -/
structure EvalResponse where
  message : String
  isReasonable : Bool
  counterProposal : Option PaymentPlan
deriving DecidableEq

/-- Hardship detection inside `evaluateAndNegotiate` (four keywords). -/
def hasHardshipEval (userSituation : String) : Bool :=
  lowerIncludes userSituation "hardship" || lowerIncludes userSituation "laid off" ||
  lowerIncludes userSituation "medical" || lowerIncludes userSituation "difficult"

/-- `evaluateAndNegotiate`: judge a user-supplied plan. -/
def evaluateAndNegotiate (userProposal : UserProposal) (debtAmount : ℚ)
    (userSituation : String) (response : EvalResponse) (stage : ℕ) :
    ChatMessage × ℕ :=
  if userProposal.frequency ∉ allowedFrequencies then
    createCounterProposal
      "Invalid payment frequency. Only weekly, biweekly, or monthly are allowed."
      "monthly" 6 debtAmount "" stage
  else
    let absoluteMinPayment := getMinimumPayment userProposal.frequency debtAmount
    if userProposal.amount * userProposal.termLength < debtAmount then
      if userProposal.amount < absoluteMinPayment then
        let suggestedAmount := jsCeil (absoluteMinPayment * 1.25)
        let suggestedTerm := jsCeil (debtAmount / suggestedAmount)
        createCounterProposal
          "I appreciate your situation, but we need a plan that covers the full debt amount in a reasonable time. Here\x27s a suggested plan that works better."
          userProposal.frequency suggestedTerm debtAmount "" stage
      else
        let adjustedTerm := jsCeil (debtAmount / userProposal.amount)
        createCounterProposal
          "Your payment amount looks good, but we need to adjust the term to cover the full debt."
          userProposal.frequency adjustedTerm debtAmount "" stage
    else if userProposal.amount < absoluteMinPayment then
      let hasHardship := hasHardshipEval userSituation
      let multiplier : ℚ := if hasHardship then 1.1 else 1.25
      let counterAmount := jsCeil (absoluteMinPayment * multiplier)
      let counterTerm := jsCeil (debtAmount / counterAmount)
      createCounterProposal
        (if hasHardship then
          "I understand your situation, but we need something a bit higher to make this work."
        else
          "We need to increase the payment amount to make this a viable arrangement.")
        userProposal.frequency counterTerm debtAmount "" stage
    else if userProposal.amount * userProposal.termLength ≠ debtAmount then
      let adjustedTerm := jsCeil (debtAmount / userProposal.amount)
      createCounterProposal
        "Let me adjust the payment term slightly to make sure it covers the full debt."
        userProposal.frequency adjustedTerm debtAmount "" stage
    else
      ({ message :=
           if response.message = "" then "This is a reasonable payment plan."
           else response.message,
         isBot := true,
         displayType := some DisplayType.paymentPlans,
         displayData := some (DisplayData.plans
           [{ frequency := userProposal.frequency, amount := userProposal.amount,
              termLength := userProposal.termLength, totalAmount := debtAmount }]) },
       stage + 1)

/-- The `proposedPlan` argument shape of `suggestPlan`. -/
structure ProposedPlan where
  frequency : String
  amount : ℚ
  termLength : ℚ
deriving DecidableEq

/-- Hardship detection inside `suggestPlan` (three keywords only). -/
def hasHardshipSuggest (userSituation : String) : Bool :=
  lowerIncludes userSituation "hardship" || lowerIncludes userSituation "laid off" ||
  lowerIncludes userSituation "medical"

/-- `suggestPlan`: validate a plan the orchestrator wants to put forward. -/
def suggestPlan (proposedPlan : ProposedPlan) (debtAmount : ℚ)
    (userSituation : String) (message : String) (stage : ℕ) : ChatMessage × ℕ :=
  if proposedPlan.frequency ∉ allowedFrequencies then
    createCounterProposal
      "Our system only supports weekly, biweekly, or monthly payment frequencies."
      "monthly" 6 debtAmount message stage
  else
    let absoluteMinPayment := getMinimumPayment proposedPlan.frequency debtAmount
    if proposedPlan.amount * proposedPlan.termLength ≠ debtAmount then
      let adjustedTerm := jsCeil (debtAmount / proposedPlan.amount)
      createCounterProposal
        "Let me adjust this plan to ensure it covers your total debt exactly."
        proposedPlan.frequency adjustedTerm debtAmount message stage
    else if proposedPlan.amount < absoluteMinPayment ∧ stage < 2 then
      let suggestedAmount := jsCeil (absoluteMinPayment * 1.5)
      let suggestedTerm := jsCeil (debtAmount / suggestedAmount)
      createCounterProposal
        "I need to suggest a more effective payment plan."
        proposedPlan.frequency suggestedTerm debtAmount message stage
    else if hasHardshipSuggest userSituation ∧ stage < 2 then
      let suggestedAmount := jsCeil (absoluteMinPayment * 1.2)
      let suggestedTerm := jsCeil (debtAmount / suggestedAmount)
      createCounterProposal
        "Here\x27s a plan that might work better for you, based on your situation."
        proposedPlan.frequency suggestedTerm debtAmount message stage
    else
      ({ message := message, isBot := true,
         displayType := some DisplayType.paymentPlans,
         displayData := some (DisplayData.plans
           [{ frequency := proposedPlan.frequency, amount := proposedPlan.amount,
              termLength := proposedPlan.termLength, totalAmount := debtAmount }]) },
       stage + 1)

/-- `finalizePlan`: the terminal hard check.  Note that, unlike the other two
entry points, it performs no `allowedFrequencies` validation: an unknown
frequency merely falls back to the monthly rate inside `getMinimumPayment`. -/
def finalizePlan (plan : PaymentPlan) (userDetails : String) (message : String)
    (stage : ℕ) : ChatMessage × ℕ :=
  let absoluteMinPayment := getMinimumPayment plan.frequency plan.totalAmount
  if plan.amount < absoluteMinPayment then
    let minTerm := jsCeil (plan.totalAmount / absoluteMinPayment)
    let betterPlan : PaymentPlan :=
      { frequency := plan.frequency, amount := absoluteMinPayment,
        termLength := minTerm, totalAmount := plan.totalAmount }
    ({ message := "I can\x27t finalize this plan as it doesn\x27t meet our minimum payment requirements. For a $"
         ++ jsNumToString plan.totalAmount ++ " debt, the minimum " ++ plan.frequency
         ++ " payment is $" ++ jsNumToString absoluteMinPayment
         ++ ". Here\x27s a better plan that meets our requirements.",
       isBot := true,
       displayType := some DisplayType.paymentPlans,
       displayData := some (DisplayData.plans [betterPlan]) }, stage)
  else
    let paymentLink := "collectwise.com/payments?termLength=" ++ jsNumToString plan.termLength
      ++ "&totalDebtAmount=" ++ jsNumToString plan.totalAmount
      ++ "&termPaymentAmount=" ++ jsNumToString plan.amount
    let finalPlan : FinalPaymentPlan :=
      { frequency := plan.frequency, amount := plan.amount,
        termLength := plan.termLength, totalAmount := plan.totalAmount,
        paymentLink := some paymentLink }
    ({ message := message, isBot := true,
       displayType := some DisplayType.finalPlan,
       displayData := some (DisplayData.final finalPlan) }, 0)

/-- Initial value of the module-level `negotiationStage` counter (it is both
declared as 0 and reset to 0 when a conversation starts). -/
def initialStage : ℕ := 0

/-! ### The implicit offer extractor

`extractPaymentPlan` runs three JS regular expressions over the text.  Each
is modelled below by a scanner that tries a deterministic parse at every
position from the left, which coincides with the JS engine on these three
patterns: in each of them the successive pieces draw from disjoint character
classes (so greedy matching never needs to backtrack) and the alternatives
start with distinct characters (so alternation order is immaterial beyond
first-success). -/

/-- JS word character class `\w` = `[A-Za-z0-9_]`. -/
def wordChar (c : Char) : Bool := c.isAlphanum || c = '_'

/-- Case-insensitive match of an ASCII lowercase pattern against the head of
the input; on success return the remaining input. -/
def ciMatchWord : List Char → List Char → Option (List Char)
  | [], rest => some rest
  | _ :: _, [] => none
  | p :: ps, c :: rest => if c.toLower = p then ciMatchWord ps rest else none

/-- The `(,\d{3})*` part of the dollar-amount pattern: greedily consume
comma-separated three-digit groups, returning the consumed characters and
the remaining input. -/
def takeCommaGroups : List Char → List Char × List Char
  | ',' :: a :: b :: c :: rest =>
    if a.isDigit && b.isDigit && c.isDigit then
      let p := takeCommaGroups rest
      (',' :: a :: b :: c :: p.1, p.2)
    else ([], ',' :: a :: b :: c :: rest)
  | cs => ([], cs)

/-- Match the capture group of the dollar pattern
`\$(\d{1,3}(?:,\d{3})*(?:\.\d{2})?|\d+(?:\.\d{2})?)` right after a `$` sign.
The first alternative succeeds whenever a digit follows, so the second
alternative is reachable only when no digit follows, where it fails too. -/
def matchDollarGroup (cs : List Char) : Option (List Char) :=
  let d := cs.takeWhile Char.isDigit
  if d.isEmpty then none
  else
    let d1 := d.take 3
    let rest := cs.drop d1.length
    let p := takeCommaGroups rest
    let dec : List Char :=
      match p.2 with
      | '.' :: a :: b :: _ => if a.isDigit && b.isDigit then ['.', a, b] else []
      | _ => []
    some (d1 ++ p.1 ++ dec)

/-- First match of the dollar pattern in the text (the capture group). -/
def firstDollarMatch : List Char → Option (List Char)
  | [] => none
  | '$' :: rest =>
    match matchDollarGroup rest with
    | some g => some g
    | none => firstDollarMatch rest
  | _ :: rest => firstDollarMatch rest

/-- Value of a digit string. -/
def natOfDigits (ds : List Char) : ℕ :=
  ds.foldl (fun acc c => acc * 10 + (c.toNat - '0'.toNat)) 0

/-- `parseFloat` applied to the comma-stripped dollar capture group (digits
optionally followed by a dot and two digits). -/
def parseAmount (g : List Char) : ℚ :=
  let h := g.filter (fun c => c ≠ ',')
  let intPart := h.takeWhile Char.isDigit
  match h.drop intPart.length with
  | '.' :: ds => (natOfDigits intPart : ℚ) + (natOfDigits ds : ℚ) / ((10 : ℚ) ^ ds.length)
  | _ => (natOfDigits intPart : ℚ)

/-- Word boundary `\b` after a keyword that ends in a word character. -/
def boundaryAfter : List Char → Bool
  | [] => true
  | c :: _ => !wordChar c

/-- Match one of the frequency keywords at the current position, including
the trailing `\b` (the alternatives start with distinct letters, so at most
one can match).  Returns the keyword already lowercased, as the source
applies `.toLowerCase()` to the matched text. -/
def freqHere (cs : List Char) : Option String :=
  match ciMatchWord "weekly".toList cs with
  | some rest => if boundaryAfter rest then some "weekly" else none
  | none =>
    match ciMatchWord "biweekly".toList cs with
    | some rest => if boundaryAfter rest then some "biweekly" else none
    | none =>
      match ciMatchWord "monthly".toList cs with
      | some rest => if boundaryAfter rest then some "monthly" else none
      | none => none

/-- Scanner for `\b(weekly|biweekly|monthly)\b` (case-insensitive).  The
boolean argument records whether the previous character was a word
character, which decides the leading `\b`. -/
def firstFreqMatchAux : Bool → List Char → Option String
  | _, [] => none
  | prevW, c :: rest =>
    match (if prevW then none else freqHere (c :: rest)) with
    | some f => some f
    | none => firstFreqMatchAux (wordChar c) rest

/-- First match of the frequency pattern in the text, lowercased. -/
def firstFreqMatch (cs : List Char) : Option String := firstFreqMatchAux false cs

/-- Match `(?:for|over)\s+(\d+)\s+(week|month|payment|installment)` at the
current position, returning the captured number. -/
def termHere (cs : List Char) : Option ℕ :=
  let afterKw :=
    match ciMatchWord "for".toList cs with
    | some rest => some rest
    | none => ciMatchWord "over".toList cs
  match afterKw with
  | none => none
  | some rest =>
    let ws := rest.takeWhile Char.isWhitespace
    if ws.isEmpty then none
    else
      let r1 := rest.drop ws.length
      let ds := r1.takeWhile Char.isDigit
      if ds.isEmpty then none
      else
        let r2 := r1.drop ds.length
        let ws2 := r2.takeWhile Char.isWhitespace
        if ws2.isEmpty then none
        else
          let r3 := r2.drop ws2.length
          if (ciMatchWord "week".toList r3).isSome || (ciMatchWord "month".toList r3).isSome
              || (ciMatchWord "payment".toList r3).isSome
              || (ciMatchWord "installment".toList r3).isSome then
            some (natOfDigits ds)
          else none

/-- First match of the term-length pattern in the text (the captured
number). -/
def firstTermMatch : List Char → Option ℕ
  | [] => none
  | c :: rest =>
    match termHere (c :: rest) with
    | some n => some n
    | none => firstTermMatch rest

/-- The result shape of `extractPaymentPlan`. -/
structure ExtractedPlan where
  frequency : String
  amount : ℚ
  termLength : ℚ
deriving DecidableEq

/-- The `{found, plan?}` record returned by `extractPaymentPlan`. -/
structure ExtractResult where
  found : Bool
  plan : Option ExtractedPlan
deriving DecidableEq

/-- `extractPaymentPlan`: produce a candidate plan when the text contains
both a dollar amount and a frequency keyword; a missing term-length phrase
defaults the term to `Math.ceil(debtAmount / amount)` (the literal `6`
initializer in the source is dead, being always overwritten). -/
def extractPaymentPlan (text : String) (debtAmount : ℚ) : ExtractResult :=
  let cs := text.toList
  match firstDollarMatch cs, firstFreqMatch cs with
  | some g, some freq =>
    let amount := parseAmount g
    let termLength : ℚ :=
      match firstTermMatch cs with
      | some n => (n : ℚ)
      | none => jsCeil (debtAmount / amount)
    ⟨true, some ⟨freq, amount, termLength⟩⟩
  | _, _ => ⟨false, none⟩

end CollectWise

unseal Rat.mul Rat.add Rat.sub Rat.inv Rat.ofScientific

namespace CollectWise

/-- Helper: the shared counter-offer builder always increments the stage by
exactly one. -/
theorem createCounterProposal_stage (sm f : String) (t tot : ℚ) (um : String) (s : ℕ) :
    (createCounterProposal sm f t tot um s).2 = s + 1 := rfl

/-- Helper: the shared counter-offer builder displays one plan whose amount
is `floor(totalAmount / termLength)`. -/
theorem createCounterProposal_displayData (sm f : String) (t tot : ℚ) (um : String) (s : ℕ) :
    (createCounterProposal sm f t tot um s).1.displayData
      = some (DisplayData.plans
        [{ frequency := f, amount := jsFloor (tot / t), termLength := t, totalAmount := tot }]) := rfl

/-- C7: `minimumPayment` applies rate 8% for monthly, 4% for biweekly, 2%
for weekly, rounded up with `ceil`, and any unknown frequency string falls
back to the monthly value `ceil(debtAmount * 0.08)`. -/
theorem minimumPayment_rate_table :
    (∀ d : ℚ, getMinimumPayment "monthly" d = (⌈d * 0.08⌉ : ℚ)
      ∧ getMinimumPayment "biweekly" d = (⌈d * 0.04⌉ : ℚ)
      ∧ getMinimumPayment "weekly" d = (⌈d * 0.02⌉ : ℚ))
    ∧ ∀ (f : String) (d : ℚ), f ∉ allowedFrequencies →
      getMinimumPayment f d = (⌈d * 0.08⌉ : ℚ) := by
  constructor
  · exact fun d => ⟨rfl, rfl, rfl⟩
  · intro f d hf
    have h1 : ¬(f = "monthly") := fun e => hf (by simp [allowedFrequencies, e])
    have h2 : ¬(f = "biweekly") := fun e => hf (by simp [allowedFrequencies, e])
    have h3 : ¬(f = "weekly") := fun e => hf (by simp [allowedFrequencies, e])
    simp only [getMinimumPayment, if_neg h1, if_neg h2, if_neg h3]
    rfl

/-- C7 witness: the fallback clause at the concrete unknown frequency
"daily". -/
theorem minimumPayment_rate_table_witness :
    "daily" ∉ allowedFrequencies ∧ getMinimumPayment "daily" 100 = (⌈(100 : ℚ) * 0.08⌉ : ℚ) :=
  ⟨by decide, minimumPayment_rate_table.2 "daily" 100 (by decide)⟩

/-- C8: for every fixed frequency string, `minimumPayment` is monotonically
non-decreasing in the debt amount. -/
theorem minimumPayment_monotone (f : String) (d₁ d₂ : ℚ) (h : d₁ ≤ d₂) :
    getMinimumPayment f d₁ ≤ getMinimumPayment f d₂ := by
  simp only [getMinimumPayment, jsCeil]
  have hr : (0 : ℚ) ≤
      (if f = "monthly" then (0.08 : ℚ)
       else if f = "biweekly" then 0.04
       else if f = "weekly" then 0.02
       else 0.08) := by
    split_ifs <;> norm_num
  exact_mod_cast Int.ceil_le_ceil (mul_le_mul_of_nonneg_right h hr)

/-- C8 witness: monotonicity at the concrete pair 100 ≤ 200 for the monthly
frequency. -/
theorem minimumPayment_monotone_witness :
    (100 : ℚ) ≤ 200 ∧ getMinimumPayment "monthly" 100 ≤ getMinimumPayment "monthly" 200 :=
  ⟨by norm_num, minimumPayment_monotone "monthly" 100 200 (by norm_num)⟩

/-- C5 counterexample: the refusal branch of `finalizePlan` constructs a
counter-offer (display kind "paymentPlans") yet leaves the stage unchanged —
neither incremented by 1 nor reset to 0 — refuting the claim that every
engine call either increments the stage (accept or counter) or resets it to
0 (successful finalization). -/
theorem finalize_refusal_stage_unchanged :
    (finalizePlan ⟨"monthly", 50, 12, 2400⟩ "" "m" 1).1.displayType = some DisplayType.paymentPlans
    ∧ (finalizePlan ⟨"monthly", 50, 12, 2400⟩ "" "m" 1).1.displayData
        = some (DisplayData.plans [⟨"monthly", 192, 13, 2400⟩])
    ∧ (finalizePlan ⟨"monthly", 50, 12, 2400⟩ "" "m" 1).2 = 1
    ∧ ¬((finalizePlan ⟨"monthly", 50, 12, 2400⟩ "" "m" 1).2 = 1 + 1
        ∨ (finalizePlan ⟨"monthly", 50, 12, 2400⟩ "" "m" 1).2 = 0) := by decide

/-- C5 amended: the stage counter starts at 0; every `evaluateAndNegotiate`
and `suggestPlan` call and every counter built by the shared builder
increments it by exactly 1; `finalizePlan` resets it to 0 on success and
leaves it unchanged when it refuses an under-floor plan (the refusal
counter-offer does not increment the stage). -/
theorem stage_transition_characterization :
    initialStage = 0
    ∧ (∀ (up : UserProposal) (debt : ℚ) (sit : String) (resp : EvalResponse) (s : ℕ),
        (evaluateAndNegotiate up debt sit resp s).2 = s + 1)
    ∧ (∀ (pp : ProposedPlan) (debt : ℚ) (sit m : String) (s : ℕ),
        (suggestPlan pp debt sit m s).2 = s + 1)
    ∧ (∀ (sm f : String) (t tot : ℚ) (um : String) (s : ℕ),
        (createCounterProposal sm f t tot um s).2 = s + 1)
    ∧ (∀ (plan : PaymentPlan) (ud m : String) (s : ℕ),
        (finalizePlan plan ud m s).2 =
          if plan.amount < getMinimumPayment plan.frequency plan.totalAmount then s else 0) := by
  refine ⟨rfl, ?_, ?_, ?_, ?_⟩
  · intro up debt sit resp s
    simp only [evaluateAndNegotiate]
    split_ifs <;> rfl
  · intro pp debt sit m s
    simp only [suggestPlan]
    split_ifs <;> rfl
  · intro sm f t tot um s
    rfl
  · intro plan ud m s
    simp only [finalizePlan]
    split_ifs <;> rfl

/-- C10: every counter-offer built by the shared builder carries exactly one
plan, whose `totalAmount` is the `totalAmount` argument and whose displayed
amount is `floor(totalAmount / termLength)`; hence the displayed product
`amount * termLength` is at most `totalAmount`, strictly less exactly when
`termLength` does not divide `totalAmount` (the remainder being carried by
the larger final installment). -/
theorem counterProposal_display_amount_invariant (sm f : String) (t tot : ℚ)
    (um : String) (s : ℕ) (ht : 0 < t) :
    (createCounterProposal sm f t tot um s).1.displayData
      = some (DisplayData.plans
        [{ frequency := f, amount := jsFloor (tot / t), termLength := t, totalAmount := tot }])
    ∧ jsFloor (tot / t) * t ≤ tot
    ∧ (jsFloor (tot / t) * t < tot ↔ ¬∃ k : ℤ, tot = (k : ℚ) * t) := by
  have hle : jsFloor (tot / t) * t ≤ tot := by
    have h1 : ((⌊tot / t⌋ : ℚ)) ≤ tot / t := Int.floor_le _
    have h2 := mul_le_mul_of_nonneg_right h1 ht.le
    rwa [div_mul_cancel₀ tot (ne_of_gt ht)] at h2
  refine ⟨rfl, hle, ?_, ?_⟩
  · rintro hlt ⟨k, hk⟩
    have hq : tot / t = (k : ℚ) := by
      rw [hk, mul_div_assoc, div_self (ne_of_gt ht), mul_one]
    have he : jsFloor (tot / t) * t = tot := by
      show ((⌊tot / t⌋ : ℚ)) * t = tot
      rw [hq, Int.floor_intCast, ← hk]
    rw [he] at hlt
    exact lt_irrefl tot hlt
  · intro hne
    rcases hle.lt_or_eq with h | h
    · exact h
    · exact absurd ⟨⌊tot / t⌋, h.symm⟩ hne

/-- C10 witness: the invariant at the concrete call with term 7 and total
100 (uneven split: the displayed product 14 × 7 = 98 understates 100). -/
theorem counterProposal_display_amount_invariant_witness :
    (0 : ℚ) < 7
    ∧ (createCounterProposal "s" "monthly" 7 100 "" 0).1.displayData
        = some (DisplayData.plans
          [{ frequency := "monthly", amount := jsFloor ((100 : ℚ) / 7), termLength := 7, totalAmount := 100 }])
    ∧ jsFloor ((100 : ℚ) / 7) * 7 ≤ 100 :=
  ⟨by norm_num,
   (counterProposal_display_amount_invariant "s" "monthly" 7 100 "" 0 (by norm_num)).1,
   (counterProposal_display_amount_invariant "s" "monthly" 7 100 "" 0 (by norm_num)).2.1⟩

/-- C1: for every plan and at every stage, `finalizePlan` returns a terminal
agreement (display kind "finalPlan") exactly when the plan amount is at
least `minimumPayment(plan.frequency, plan.totalAmount)`; in that case the
agreement carries the payment link
`collectwise.com/payments?termLength=...&totalDebtAmount=...&termPaymentAmount=...`
built from the plan fields; otherwise it returns a non-terminal refusal
(display kind "paymentPlans") carrying the single corrected plan with the
minimum amount and term `ceil(totalAmount / minimum)`, and no finalization
occurs (the stage is not reset). -/
theorem finalizePlan_terminal_iff_floor (plan : PaymentPlan) (ud m : String) (s : ℕ) :
    ((finalizePlan plan ud m s).1.displayType = some DisplayType.finalPlan
      ↔ getMinimumPayment plan.frequency plan.totalAmount ≤ plan.amount)
    ∧ (getMinimumPayment plan.frequency plan.totalAmount ≤ plan.amount →
        (finalizePlan plan ud m s).1.displayData = some (DisplayData.final
          { frequency := plan.frequency, amount := plan.amount,
            termLength := plan.termLength, totalAmount := plan.totalAmount,
            paymentLink := some ("collectwise.com/payments?termLength="
              ++ jsNumToString plan.termLength ++ "&totalDebtAmount="
              ++ jsNumToString plan.totalAmount ++ "&termPaymentAmount="
              ++ jsNumToString plan.amount) })
        ∧ (finalizePlan plan ud m s).2 = 0)
    ∧ (plan.amount < getMinimumPayment plan.frequency plan.totalAmount →
        (finalizePlan plan ud m s).1.displayType = some DisplayType.paymentPlans
        ∧ (finalizePlan plan ud m s).1.displayData = some (DisplayData.plans
            [{ frequency := plan.frequency,
               amount := getMinimumPayment plan.frequency plan.totalAmount,
               termLength := jsCeil (plan.totalAmount / getMinimumPayment plan.frequency plan.totalAmount),
               totalAmount := plan.totalAmount }])
        ∧ (finalizePlan plan ud m s).2 = s) := by
  by_cases h : plan.amount < getMinimumPayment plan.frequency plan.totalAmount
  · have hdt : (finalizePlan plan ud m s).1.displayType = some DisplayType.paymentPlans := by
      simp only [finalizePlan, if_pos h]
    refine ⟨?_, ?_, ?_⟩
    · rw [hdt]
      exact iff_of_false (by simp) (not_le.mpr h)
    · intro hle
      exact absurd hle (not_le.mpr h)
    · intro _
      refine ⟨hdt, ?_, ?_⟩
      · simp only [finalizePlan, if_pos h]
      · simp only [finalizePlan, if_pos h]
  · have hle := not_lt.mp h
    have hdt : (finalizePlan plan ud m s).1.displayType = some DisplayType.finalPlan := by
      simp only [finalizePlan, if_neg h]
    refine ⟨?_, ?_, ?_⟩
    · rw [hdt]
      exact iff_of_true rfl hle
    · intro _
      constructor
      · simp only [finalizePlan, if_neg h]
      · simp only [finalizePlan, if_neg h]
    · intro hlt
      exact absurd hlt h

/-- C1 witness: the spec scenario `{monthly, 192, 13, 2400}` (floor 192)
finalizes, and the spec scenario `{monthly, 50, 12, 2400}` (floor 192) is
refused with the corrected plan `{192, 13}` and an unchanged stage. -/
theorem finalizePlan_terminal_iff_floor_witness :
    (getMinimumPayment "monthly" 2400 ≤ 192
      ∧ (finalizePlan ⟨"monthly", 192, 13, 2400⟩ "" "ok" 5).1.displayType = some DisplayType.finalPlan)
    ∧ ((50 : ℚ) < getMinimumPayment "monthly" 2400
      ∧ (finalizePlan ⟨"monthly", 50, 12, 2400⟩ "" "no" 5).1.displayType = some DisplayType.paymentPlans) :=
  ⟨⟨by decide, (finalizePlan_terminal_iff_floor ⟨"monthly", 192, 13, 2400⟩ "" "ok" 5).1.mpr (by decide)⟩,
   ⟨by decide, ((finalizePlan_terminal_iff_floor ⟨"monthly", 50, 12, 2400⟩ "" "no" 5).2.2 (by decide)).1⟩⟩

/-- C2: in the accept branch of `evaluateAndNegotiate` (exact product match
with the debt, amount at or above the floor) and in the accept branch of
`suggestPlan`, the returned single-element plan list carries a plan with
`amount * termLength = totalAmount` exactly and `totalAmount` equal to the
`debtAmount` argument. -/
theorem accepted_plan_product_eq_debt :
    (∀ (up : UserProposal) (debt : ℚ) (sit : String) (resp : EvalResponse) (s : ℕ),
      up.frequency ∈ allowedFrequencies →
      getMinimumPayment up.frequency debt ≤ up.amount →
      up.amount * up.termLength = debt →
      ∃ p : PaymentPlan,
        (evaluateAndNegotiate up debt sit resp s).1.displayData = some (DisplayData.plans [p])
        ∧ p.amount * p.termLength = p.totalAmount ∧ p.totalAmount = debt)
    ∧ ∀ (pp : ProposedPlan) (debt : ℚ) (sit m : String) (s : ℕ),
      pp.frequency ∈ allowedFrequencies →
      pp.amount * pp.termLength = debt →
      (pp.amount < getMinimumPayment pp.frequency debt → 2 ≤ s) →
      (hasHardshipSuggest sit = true → 2 ≤ s) →
      ∃ p : PaymentPlan,
        (suggestPlan pp debt sit m s).1.displayData = some (DisplayData.plans [p])
        ∧ p.amount * p.termLength = p.totalAmount ∧ p.totalAmount = debt := by
  constructor
  · intro up debt sit resp s hfreq hmin hprod
    have h1 : ¬(up.frequency ∉ allowedFrequencies) := not_not_intro hfreq
    have h2 : ¬(up.amount * up.termLength < debt) := by
      rw [hprod]; exact lt_irrefl debt
    have h3 : ¬(up.amount < getMinimumPayment up.frequency debt) := not_lt.mpr hmin
    have h4 : ¬(up.amount * up.termLength ≠ debt) := not_not_intro hprod
    refine ⟨{ frequency := up.frequency, amount := up.amount,
              termLength := up.termLength, totalAmount := debt }, ?_, hprod, rfl⟩
    simp only [evaluateAndNegotiate, if_neg h1, if_neg h2, if_neg h3, if_neg h4]
  · intro pp debt sit m s hfreq hprod hstage hhard
    have h1 : ¬(pp.frequency ∉ allowedFrequencies) := not_not_intro hfreq
    have h2 : ¬(pp.amount * pp.termLength ≠ debt) := not_not_intro hprod
    have h3 : ¬(pp.amount < getMinimumPayment pp.frequency debt ∧ s < 2) := by
      rintro ⟨hlt, hs⟩
      exact absurd (hstage hlt) (not_le.mpr hs)
    have h4 : ¬(hasHardshipSuggest sit = true ∧ s < 2) := by
      rintro ⟨hh, hs⟩
      exact absurd (hhard hh) (not_le.mpr hs)
    refine ⟨{ frequency := pp.frequency, amount := pp.amount,
              termLength := pp.termLength, totalAmount := debt }, ?_, hprod, rfl⟩
    simp only [suggestPlan, if_neg h1, if_neg h2, if_neg h3, if_neg h4]

/-- C2 witness: the spec scenario debt = 1200, proposal
`{weekly, 25, 48}` (floor 24, exact product) is accepted by both entry
points. -/
theorem accepted_plan_product_eq_debt_witness :
    ("weekly" ∈ allowedFrequencies ∧ getMinimumPayment "weekly" 1200 ≤ 25
      ∧ (25 : ℚ) * 48 = 1200)
    ∧ (∃ p : PaymentPlan,
        (evaluateAndNegotiate ⟨25, "weekly", 48⟩ 1200 "" ⟨"ok", true, none⟩ 0).1.displayData
          = some (DisplayData.plans [p])
        ∧ p.amount * p.termLength = p.totalAmount ∧ p.totalAmount = 1200)
    ∧ ∃ p : PaymentPlan,
        (suggestPlan ⟨"weekly", 25, 48⟩ 1200 "" "ok" 2).1.displayData
          = some (DisplayData.plans [p])
        ∧ p.amount * p.termLength = p.totalAmount ∧ p.totalAmount = 1200 :=
  ⟨⟨by decide, by decide, by decide⟩,
   accepted_plan_product_eq_debt.1 ⟨25, "weekly", 48⟩ 1200 "" ⟨"ok", true, none⟩ 0
     (by decide) (by decide) (by decide),
   accepted_plan_product_eq_debt.2 ⟨"weekly", 25, 48⟩ 1200 "" "ok" 2
     (by decide) (by decide) (fun _ => by norm_num) (fun _ => by norm_num)⟩

/-- Helper: the counter-offer builder marks its response as a
"paymentPlans" display. -/
theorem createCounterProposal_displayType (sm f : String) (t tot : ℚ) (um : String) (s : ℕ) :
    (createCounterProposal sm f t tot um s).1.displayType = some DisplayType.paymentPlans := rfl

/-- Helper: an unknown frequency makes `getMinimumPayment` fall back to the
monthly rate. -/
theorem getMinimumPayment_fallback (f : String) (h : f ∉ allowedFrequencies) (d : ℚ) :
    getMinimumPayment f d = getMinimumPayment "monthly" d := by
  have h1 : ¬(f = "monthly") := fun e => h (by simp [allowedFrequencies, e])
  have h2 : ¬(f = "biweekly") := fun e => h (by simp [allowedFrequencies, e])
  have h3 : ¬(f = "weekly") := fun e => h (by simp [allowedFrequencies, e])
  simp only [getMinimumPayment, if_neg h1, if_neg h2, if_neg h3]
  rfl

/-- C3 counterexample: for debt 990 and the under-floor non-covering
proposal `{monthly, 50, 2}`, the counter plan carries amount 99, which is
not `ceil(minimumPayment * 1.25) = 100` — the shared builder recomputes the
displayed amount as `floor(debt / term)`, so the claimed amount formula
fails whenever the division is not exact. -/
theorem counter_amount_not_ceil_counterexample :
    ((50 : ℚ) * 2 < 990 ∧ (50 : ℚ) < getMinimumPayment "monthly" 990)
    ∧ (evaluateAndNegotiate ⟨50, "monthly", 2⟩ 990 "" ⟨"", false, none⟩ 0).1.displayData
        = some (DisplayData.plans [⟨"monthly", 99, 10, 990⟩])
    ∧ (99 : ℚ) ≠ jsCeil (getMinimumPayment "monthly" 990 * 1.25) := by decide

/-- C3 amended: when the proposal does not cover the debt and its amount is
below the floor, the counter plan has term
`t = ceil(debt / ceil(minimumPayment * 1.25))` and displayed amount
`floor(debt / t)` (equal to `ceil(minimumPayment * 1.25)` only when the
division is exact); the spec scenario debt = 2400, proposal
`{monthly, 50, 12}` yields the plan `{monthly, 240, 10}` with product
2400 ≥ 2400 and amount 240 ≥ `ceil(minimumPayment * 1.25)` as claimed. -/
theorem underfloor_noncovering_counter_shape :
    (∀ (up : UserProposal) (debt : ℚ) (sit : String) (resp : EvalResponse) (s : ℕ),
      up.frequency ∈ allowedFrequencies →
      up.amount * up.termLength < debt →
      up.amount < getMinimumPayment up.frequency debt →
      (evaluateAndNegotiate up debt sit resp s).1.displayData
        = some (DisplayData.plans
          [{ frequency := up.frequency,
             amount := jsFloor (debt / jsCeil (debt / jsCeil (getMinimumPayment up.frequency debt * 1.25))),
             termLength := jsCeil (debt / jsCeil (getMinimumPayment up.frequency debt * 1.25)),
             totalAmount := debt }]))
    ∧ ((evaluateAndNegotiate ⟨50, "monthly", 12⟩ 2400 "" ⟨"", false, none⟩ 0).1.displayData
        = some (DisplayData.plans [⟨"monthly", 240, 10, 2400⟩])
      ∧ (240 : ℚ) * 10 ≥ 2400
      ∧ (240 : ℚ) ≥ jsCeil (getMinimumPayment "monthly" 2400 * 1.25)) := by
  constructor
  · intro up debt sit resp s hfreq hcov hamt
    have h1 : ¬(up.frequency ∉ allowedFrequencies) := not_not_intro hfreq
    simp only [evaluateAndNegotiate, if_neg h1, if_pos hcov, if_pos hamt]
    rfl
  · exact ⟨by decide, by decide, by decide⟩

/-- C3 witness: the general counter shape applied to the concrete scenario
debt 2400, proposal `{monthly, 50, 12}` at stage 3. -/
theorem underfloor_noncovering_counter_shape_witness :
    ("monthly" ∈ allowedFrequencies ∧ (50 : ℚ) * 12 < 2400
      ∧ (50 : ℚ) < getMinimumPayment "monthly" 2400)
    ∧ (evaluateAndNegotiate ⟨50, "monthly", 12⟩ 2400 "tight month" ⟨"", false, none⟩ 3).1.displayData
        = some (DisplayData.plans
          [{ frequency := "monthly",
             amount := jsFloor (2400 / jsCeil (2400 / jsCeil (getMinimumPayment "monthly" 2400 * 1.25))),
             termLength := jsCeil (2400 / jsCeil (getMinimumPayment "monthly" 2400 * 1.25)),
             totalAmount := 2400 }]) :=
  ⟨⟨by decide, by decide, by decide⟩,
   underfloor_noncovering_counter_shape.1 ⟨50, "monthly", 12⟩ 2400 "tight month"
     ⟨"", false, none⟩ 3 (by decide) (by decide) (by decide)⟩

/-- C4 counterexample: for debt 1000 and the exact-product under-floor
proposal `{monthly, 50, 20}` at stage 0, the counter plan carries amount
111, not `ceil(minimumPayment * 1.5) = 120`: the shared builder recomputes
the displayed amount as `floor(debt / term)`. -/
theorem suggest_counter_amount_not_ceil_counterexample :
    ((50 : ℚ) * 20 = 1000 ∧ (50 : ℚ) < getMinimumPayment "monthly" 1000)
    ∧ (suggestPlan ⟨"monthly", 50, 20⟩ 1000 "" "msg" 0).1.displayData
        = some (DisplayData.plans [⟨"monthly", 111, 9, 1000⟩])
    ∧ (111 : ℚ) ≠ jsCeil (getMinimumPayment "monthly" 1000 * 1.5) := by decide

/-- C4 amended: for an exact-product proposal below the floor, `suggestPlan`
at stage < 2 counters with term `t = ceil(debt / ceil(minimumPayment * 1.5))`
and displayed amount `floor(debt / t)` (equal to `ceil(minimumPayment * 1.5)`
only when the division is exact); at stage ≥ 2 the same under-floor
proposal is accepted unchanged and returned with the caller-supplied
message, with no auto-escalation by this function. -/
theorem suggest_underfloor_stage_behavior :
    (∀ (pp : ProposedPlan) (debt : ℚ) (sit m : String) (s : ℕ),
      pp.frequency ∈ allowedFrequencies →
      pp.amount * pp.termLength = debt →
      pp.amount < getMinimumPayment pp.frequency debt →
      s < 2 →
      (suggestPlan pp debt sit m s).1.displayData
        = some (DisplayData.plans
          [{ frequency := pp.frequency,
             amount := jsFloor (debt / jsCeil (debt / jsCeil (getMinimumPayment pp.frequency debt * 1.5))),
             termLength := jsCeil (debt / jsCeil (getMinimumPayment pp.frequency debt * 1.5)),
             totalAmount := debt }]))
    ∧ ∀ (pp : ProposedPlan) (debt : ℚ) (sit m : String) (s : ℕ),
      pp.frequency ∈ allowedFrequencies →
      pp.amount * pp.termLength = debt →
      pp.amount < getMinimumPayment pp.frequency debt →
      2 ≤ s →
      suggestPlan pp debt sit m s
        = ({ message := m, isBot := true,
             displayType := some DisplayType.paymentPlans,
             displayData := some (DisplayData.plans
               [{ frequency := pp.frequency, amount := pp.amount,
                  termLength := pp.termLength, totalAmount := debt }]) }, s + 1) := by
  constructor
  · intro pp debt sit m s hfreq hprod hamt hs
    have h1 : ¬(pp.frequency ∉ allowedFrequencies) := not_not_intro hfreq
    have h2 : ¬(pp.amount * pp.termLength ≠ debt) := not_not_intro hprod
    simp only [suggestPlan, if_neg h1, if_neg h2, if_pos (And.intro hamt hs)]
    rfl
  · intro pp debt sit m s hfreq hprod hamt hs
    have h1 : ¬(pp.frequency ∉ allowedFrequencies) := not_not_intro hfreq
    have h2 : ¬(pp.amount * pp.termLength ≠ debt) := not_not_intro hprod
    have h3 : ¬(pp.amount < getMinimumPayment pp.frequency debt ∧ s < 2) := by
      rintro ⟨_, hs2⟩
      exact absurd hs (not_le.mpr hs2)
    have h4 : ¬(hasHardshipSuggest sit = true ∧ s < 2) := by
      rintro ⟨_, hs2⟩
      exact absurd hs (not_le.mpr hs2)
    simp only [suggestPlan, if_neg h1, if_neg h2, if_neg h3, if_neg h4]

/-- C4 witness: both stage behaviors at the concrete input debt 1000,
proposal `{monthly, 50, 20}` — countered at stage 0, accepted unchanged at
stage 2. -/
theorem suggest_underfloor_stage_behavior_witness :
    ((50 : ℚ) * 20 = 1000 ∧ (50 : ℚ) < getMinimumPayment "monthly" 1000)
    ∧ (suggestPlan ⟨"monthly", 50, 20⟩ 1000 "" "msg" 0).1.displayData
        = some (DisplayData.plans
          [{ frequency := "monthly",
             amount := jsFloor (1000 / jsCeil (1000 / jsCeil (getMinimumPayment "monthly" 1000 * 1.5))),
             termLength := jsCeil (1000 / jsCeil (getMinimumPayment "monthly" 1000 * 1.5)),
             totalAmount := 1000 }])
    ∧ suggestPlan ⟨"monthly", 50, 20⟩ 1000 "" "msg" 2
        = ({ message := "msg", isBot := true,
             displayType := some DisplayType.paymentPlans,
             displayData := some (DisplayData.plans
               [{ frequency := "monthly", amount := 50, termLength := 20, totalAmount := 1000 }]) }, 2 + 1) :=
  ⟨⟨by decide, by decide⟩,
   suggest_underfloor_stage_behavior.1 ⟨"monthly", 50, 20⟩ 1000 "" "msg" 0
     (by decide) (by decide) (by decide) (by norm_num),
   suggest_underfloor_stage_behavior.2 ⟨"monthly", 50, 20⟩ 1000 "" "msg" 2
     (by decide) (by decide) (by decide) (by norm_num)⟩

/-- C6 counterexample: `finalizePlan` performs no frequency validation — at
the invalid frequency "daily" with an amount above the (fallback) floor it
returns a terminal agreement carrying "daily", instead of substituting the
fixed safe default plan (monthly, 6 terms). -/
theorem finalize_no_frequency_fallback_counterexample :
    "daily" ∉ allowedFrequencies
    ∧ (finalizePlan ⟨"daily", 2400, 1, 2400⟩ "" "m" 0).1.displayType = some DisplayType.finalPlan
    ∧ (finalizePlan ⟨"daily", 2400, 1, 2400⟩ "" "m" 0).1.displayData
        = some (DisplayData.final ⟨"daily", 2400, 1, 2400,
            some "collectwise.com/payments?termLength=1&totalDebtAmount=2400&termPaymentAmount=2400"⟩)
    ∧ (finalizePlan ⟨"daily", 2400, 1, 2400⟩ "" "m" 0).1.displayData
        ≠ some (DisplayData.plans
          [{ frequency := "monthly", amount := jsFloor ((2400 : ℚ) / 6),
             termLength := 6, totalAmount := 2400 }]) := by decide

/-- C6 amended: `evaluateAndNegotiate` and `suggestPlan` recover from an
unknown frequency by substituting the fixed safe default counter (monthly,
6 terms, covering the debt) and never surface an error; `finalizePlan` does
not substitute the default plan — it merely falls back to the monthly
minimum rate and otherwise processes the plan normally (refusal or
finalization), still surfacing no error. -/
theorem invalid_frequency_recovery :
    (∀ (up : UserProposal) (debt : ℚ) (sit : String) (resp : EvalResponse) (s : ℕ),
      up.frequency ∉ allowedFrequencies →
      (evaluateAndNegotiate up debt sit resp s).1.displayType = some DisplayType.paymentPlans
      ∧ (evaluateAndNegotiate up debt sit resp s).1.displayData
          = some (DisplayData.plans
            [{ frequency := "monthly", amount := jsFloor (debt / 6),
               termLength := 6, totalAmount := debt }]))
    ∧ (∀ (pp : ProposedPlan) (debt : ℚ) (sit m : String) (s : ℕ),
      pp.frequency ∉ allowedFrequencies →
      (suggestPlan pp debt sit m s).1.displayType = some DisplayType.paymentPlans
      ∧ (suggestPlan pp debt sit m s).1.displayData
          = some (DisplayData.plans
            [{ frequency := "monthly", amount := jsFloor (debt / 6),
               termLength := 6, totalAmount := debt }]))
    ∧ (∀ (f : String) (d : ℚ), f ∉ allowedFrequencies →
        getMinimumPayment f d = getMinimumPayment "monthly" d)
    ∧ ∀ (plan : PaymentPlan) (ud m : String) (s : ℕ),
      plan.frequency ∉ allowedFrequencies →
      (finalizePlan plan ud m s).1.displayType
        = some (if plan.amount < getMinimumPayment "monthly" plan.totalAmount
                then DisplayType.paymentPlans else DisplayType.finalPlan) := by
  refine ⟨?_, ?_, ?_, ?_⟩
  · intro up debt sit resp s h
    have hres : evaluateAndNegotiate up debt sit resp s
        = createCounterProposal
            "Invalid payment frequency. Only weekly, biweekly, or monthly are allowed."
            "monthly" 6 debt "" s := by
      simp only [evaluateAndNegotiate, if_pos h]
    rw [hres]
    exact ⟨rfl, rfl⟩
  · intro pp debt sit m s h
    have hres : suggestPlan pp debt sit m s
        = createCounterProposal
            "Our system only supports weekly, biweekly, or monthly payment frequencies."
            "monthly" 6 debt m s := by
      simp only [suggestPlan, if_pos h]
    rw [hres]
    exact ⟨rfl, rfl⟩
  · intro f d h
    exact getMinimumPayment_fallback f h d
  · intro plan ud m s h
    have hm := getMinimumPayment_fallback plan.frequency h plan.totalAmount
    simp only [finalizePlan, hm]
    split_ifs <;> rfl

/-- C6 witness: the recovery behaviors at the concrete invalid frequency
"daily" with debt 600. -/
theorem invalid_frequency_recovery_witness :
    "daily" ∉ allowedFrequencies
    ∧ (evaluateAndNegotiate ⟨50, "daily", 2⟩ 600 "" ⟨"", false, none⟩ 0).1.displayData
        = some (DisplayData.plans
          [{ frequency := "monthly", amount := jsFloor ((600 : ℚ) / 6),
             termLength := 6, totalAmount := 600 }])
    ∧ (suggestPlan ⟨"daily", 50, 2⟩ 600 "" "m" 0).1.displayData
        = some (DisplayData.plans
          [{ frequency := "monthly", amount := jsFloor ((600 : ℚ) / 6),
             termLength := 6, totalAmount := 600 }])
    ∧ getMinimumPayment "daily" 600 = getMinimumPayment "monthly" 600 :=
  ⟨by decide,
   (invalid_frequency_recovery.1 ⟨50, "daily", 2⟩ 600 "" ⟨"", false, none⟩ 0 (by decide)).2,
   (invalid_frequency_recovery.2.1 ⟨"daily", 50, 2⟩ 600 "" "m" 0 (by decide)).2,
   invalid_frequency_recovery.2.2.1 "daily" 600 (by decide)⟩

/-- C9: the extractor reports found exactly when the text contains both a
dollar-amount token and a frequency keyword; when found and no term-length
phrase is present, the term defaults to `ceil(debtAmount / amount)`; on
"I can do $300 monthly for 6 months" with debt 2400 it yields
`{monthly, 300, 6}`, and on "I cannot pay anything right now" it yields
not-found. -/
theorem extractPaymentPlan_spec :
    (∀ (text : String) (debt : ℚ),
      (extractPaymentPlan text debt).found = true
        ↔ (firstDollarMatch text.toList).isSome ∧ (firstFreqMatch text.toList).isSome)
    ∧ (∀ (text : String) (debt : ℚ) (p : ExtractedPlan),
      firstTermMatch text.toList = none →
      (extractPaymentPlan text debt).plan = some p →
      p.termLength = jsCeil (debt / p.amount))
    ∧ extractPaymentPlan "I can do $300 monthly for 6 months" 2400
        = ⟨true, some ⟨"monthly", 300, 6⟩⟩
    ∧ extractPaymentPlan "I cannot pay anything right now" 2400 = ⟨false, none⟩ := by
  refine ⟨?_, ?_, by decide, by decide⟩
  · intro text debt
    cases h1 : firstDollarMatch text.toList <;> cases h2 : firstFreqMatch text.toList <;>
      simp only [extractPaymentPlan, h1, h2] <;> simp
  · intro text debt p hterm hplan
    cases h1 : firstDollarMatch text.toList with
    | none =>
      rw [show extractPaymentPlan text debt = ⟨false, none⟩ from by
        simp only [extractPaymentPlan, h1]] at hplan
      exact absurd hplan (by simp)
    | some g =>
      cases h2 : firstFreqMatch text.toList with
      | none =>
        rw [show extractPaymentPlan text debt = ⟨false, none⟩ from by
          simp only [extractPaymentPlan, h1, h2]] at hplan
        exact absurd hplan (by simp)
      | some f =>
        rw [show extractPaymentPlan text debt
            = ⟨true, some ⟨f, parseAmount g, jsCeil (debt / parseAmount g)⟩⟩ from by
          simp only [extractPaymentPlan, h1, h2, hterm]] at hplan
        have hp := Option.some.inj hplan
        rw [← hp]

/-- C9 witness: the default-term clause and the found-iff clause at the
concrete text "pay $20 weekly" with debt 100 (no term phrase; term defaults
to `ceil(100 / 20) = 5`). -/
theorem extractPaymentPlan_spec_witness :
    firstTermMatch (String.toList "pay $20 weekly") = none
    ∧ (extractPaymentPlan "pay $20 weekly" 100).plan = some ⟨"weekly", 20, 5⟩
    ∧ (5 : ℚ) = jsCeil (100 / (20 : ℚ))
    ∧ (extractPaymentPlan "pay $20 weekly" 100).found = true :=
  ⟨by decide, by decide,
   extractPaymentPlan_spec.2.1 "pay $20 weekly" 100 ⟨"weekly", 20, 5⟩ (by decide) (by decide),
   (extractPaymentPlan_spec.1 "pay $20 weekly" 100).mpr ⟨by decide, by decide⟩⟩

end CollectWise
